import Mathlib

/-!
Shallow embedding of the LATS (Language-Agent Tree Search) test-synthesis
core of this repository, together with proofs settling the frozen claims
about it.  Python floats are modelled as rationals (`ℚ`), Python lists as
`List`, Python dicts as association lists or records, and the two outbound
transports (LM, coverage executor) as explicit outcome oracles.  Wall-clock
timestamps (`created_at`, `last_accessed`) and the parent back-pointer of a
tree node are not representable in a pure tree embedding; paths from the
root play the role of parent pointers, and the datetime fields are omitted
because no claim depends on them.
-/

namespace LATS

/-- Embeds `ConditionInfo` from `src/core/lats/state.py` (lines 18-37).
`condition` is the Boolean sub-expression text. -/
structure ConditionInfo where
  condition : String
  need_true : Bool
  need_false : Bool
  parent_decision : Option String
deriving DecidableEq, Repr

/-- Embeds `ConditionInfo.__eq__` (state.py lines 32-37): equality compares
`condition`, `need_true` and `need_false` only; `parent_decision` does not
participate. -/
def ciEq (a b : ConditionInfo) : Bool :=
  a.condition == b.condition && a.need_true == b.need_true &&
    a.need_false == b.need_false

/-- Embeds the tuple `(self.condition, self.need_true, self.need_false)`
that `ConditionInfo.__hash__` (state.py lines 29-30) hashes.  Python's
`hash` is a function of this tuple, so two values with equal keys have
equal hashes. -/
def ciHashKey (a : ConditionInfo) : String × Bool × Bool :=
  (a.condition, a.need_true, a.need_false)

/-- Embeds `ExecutionResult` from state.py (lines 56-91).  Coverage ratios
are rationals in place of Python floats. -/
structure ExecutionResult where
  new_test_name : String
  new_test_compiled : Bool
  error_message : Option String := none
  suite_test_names : List String := []
  statement_coverage : ℚ := 0
  branch_coverage : ℚ := 0
  mcdc_coverage : ℚ := 0
  conditions_covered : List ConditionInfo := []
deriving DecidableEq, Repr

/-- Embeds the `ExecutionResult.failed` property (state.py lines 83-86). -/
def ExecutionResult.failed (r : ExecutionResult) : Bool :=
  !r.new_test_compiled || r.error_message.isSome

/-- Embeds the `ExecutionResult.primary_coverage` property (state.py
lines 88-91): always the MC/DC ratio. -/
def ExecutionResult.primary_coverage (r : ExecutionResult) : ℚ :=
  r.mcdc_coverage

/-- Embeds `TestState` from state.py (lines 94-122).  The
`coverage_details` dict is kept as an association list. -/
structure TestState where
  function_signature : String
  function_path : String
  context : String
  coverage_target : ℚ
  test_case_names : List String := []
  current_coverage : ℚ := 0
  coverage_details : List (String × ℚ) := []
  uncovered_conditions : List ConditionInfo := []
  execution_errors : List String := []
  learned_rules : List String := []
deriving DecidableEq, Repr, Inhabited

/-- Embeds `TestState.is_terminal` (state.py lines 124-135). -/
def TestState.is_terminal (s : TestState) : Bool :=
  decide (s.coverage_target ≤ s.current_coverage) ||
    s.uncovered_conditions.length == 0

/-- Python's `cond in exec_result.conditions_covered` membership test,
which uses `ConditionInfo.__eq__`. -/
def ciMem (c : ConditionInfo) (l : List ConditionInfo) : Bool :=
  l.any (fun x => ciEq x c)

/-- Embeds `TestState.clone_with_new_test` (state.py lines 137-182): the
child adopts the result's suite names and cumulative coverage, filters the
uncovered conditions by the result's covered set, appends the error message
when the execution failed (Python's truthiness test skips both a missing
and an empty message), and copies the learned rules. -/
def TestState.clone_with_new_test (s : TestState) (r : ExecutionResult) :
    TestState :=
  { function_signature := s.function_signature
    function_path := s.function_path
    context := s.context
    coverage_target := s.coverage_target
    test_case_names := r.suite_test_names
    current_coverage := r.primary_coverage
    coverage_details :=
      [("statement", r.statement_coverage), ("branch", r.branch_coverage),
        ("mcdc", r.mcdc_coverage)]
    uncovered_conditions :=
      s.uncovered_conditions.filter (fun c => !ciMem c r.conditions_covered)
    execution_errors :=
      s.execution_errors ++
        (match r.failed, r.error_message with
          | true, some m => if m == "" then [] else [m]
          | _, _ => [])
    learned_rules := s.learned_rules }

/-- Embeds `RewardConfig` from `src/core/lats/reward.py` (lines 11-19)
with its default weights. -/
structure RewardConfig where
  coverage_weight : ℚ := 10
  compile_reward : ℚ := 2
  compile_penalty : ℚ := -1
  condition_weight : ℚ := 1/2
  suite_size_penalty : ℚ := -1/10
  early_bonus : ℚ := 3
deriving DecidableEq, Repr

/-- The default `RewardConfig()`. -/
def rewardDefault : RewardConfig := {}

/-- Embeds `RewardFunction.compute` (reward.py lines 37-88): weighted sum
of coverage delta, compile bonus/penalty, conditions newly covered, suite
size penalty and early bonus, clipped below at -5 then above at 15. -/
def RewardFunction.compute (cfg : RewardConfig) (old_state new_state : TestState)
    (exec_result : ExecutionResult) : ℚ :=
  let coverage_delta := new_state.current_coverage - old_state.current_coverage
  let r1 := coverage_delta * cfg.coverage_weight
  let r2 := r1 + (if exec_result.new_test_compiled then cfg.compile_reward
    else cfg.compile_penalty)
  let conditions_covered : ℤ :=
    (old_state.uncovered_conditions.length : ℤ) -
      (new_state.uncovered_conditions.length : ℤ)
  let r3 := r2 + (conditions_covered : ℚ) * cfg.condition_weight
  let r4 := r3 + (new_state.test_case_names.length : ℚ) * cfg.suite_size_penalty
  let r5 := r4 + (if old_state.test_case_names.length == 0 &&
      exec_result.new_test_compiled && decide (0 < coverage_delta)
    then cfg.early_bonus else 0)
  min (max r5 (-5)) 15

/-- Embeds `RewardFunction.compute_terminal_bonus` (reward.py lines
90-105). -/
def RewardFunction.compute_terminal_bonus (state : TestState) : ℚ :=
  if state.coverage_target ≤ state.current_coverage then
    5 + (state.current_coverage - state.coverage_target) * 10
  else 0

/-- Embeds `MCTSConfig` from `src/core/lats/mcts_controller.py`
(lines 20-45) with its defaults; the `verbose` flag only controls logging
and is omitted. -/
structure MCTSConfig where
  max_iterations : Nat := 100
  exploration_coef : ℚ := 1414/1000
  max_depth : Nat := 50
  expansion_k : Nat := 3
  min_k : Nat := 1
  max_k : Nat := 5
  adaptive_k : Bool := true
  enable_pruning : Bool := true
  prune_threshold : ℚ := -2
  beam_width : Nat := 5
  coverage_target : ℚ := 19/20
  max_no_progress_iters : Nat := 10
deriving DecidableEq, Repr

/-- The default `MCTSConfig()`. -/
def mctsDefault : MCTSConfig := {}

/-- Embeds `MCTSController._adaptive_k` (mcts_controller.py lines
296-326).  `coverage` and `target` are read from the node's state. -/
def adaptiveK (cfg : MCTSConfig) (coverage target : ℚ) : Nat :=
  if !cfg.adaptive_k then cfg.expansion_k
  else
    let progress := if 0 < target then coverage / target else 0
    if progress < 3/10 then cfg.max_k
    else if progress < 7/10 then cfg.expansion_k
    else cfg.min_k

/-- Embeds the per-candidate part of
`MCTSController._expansion_and_simulation` (mcts_controller.py lines
240-266): each execution result is turned into a child state via
`clone_with_new_test`, its reward is computed, and the candidate is
dropped when pruning is enabled and the reward is below the threshold. -/
def keptCandidates (cfg : MCTSConfig) (rcfg : RewardConfig)
    (parent : TestState) : List ExecutionResult → List (TestState × ℚ)
  | [] => []
  | r :: rest =>
    let child := parent.clone_with_new_test r
    let reward := RewardFunction.compute rcfg parent child r
    if cfg.enable_pruning && decide (reward < cfg.prune_threshold) then
      keptCandidates cfg rcfg parent rest
    else (child, reward) :: keptCandidates cfg rcfg parent rest

/-- Embeds `MCTSController._expansion_and_simulation`'s candidate
filtering (mcts_controller.py lines 236-272): pruning by reward threshold
followed by the beam limit, which sorts the survivors by reward descending
(a stable sort, as Python's `list.sort`) and keeps the top
`beam_width`. -/
def expansionStep (cfg : MCTSConfig) (rcfg : RewardConfig)
    (parent : TestState) (results : List ExecutionResult) :
    List (TestState × ℚ) :=
  let valid := keptCandidates cfg rcfg parent results
  if cfg.enable_pruning && decide (cfg.beam_width < valid.length) then
    (valid.mergeSort (fun a b => decide (b.2 ≤ a.2))).take cfg.beam_width
  else valid

/-- Embeds `TreeNode` from `src/core/lats/tree.py` (lines 22-45).  The
tree is a rose tree: the `parent` back-pointer is represented by paths
from the root, and the unused `action` / `value_estimate` metadata is
omitted. -/
structure TreeNode where
  state : TestState
  visits : Nat := 0
  total_reward : ℚ := 0
  depth : Nat := 0
  children : List TreeNode := []

/-- A fresh `TreeNode(state=s)` as constructed at mcts_controller.py
line 109 (the root) and line 264 (candidate children). -/
def TreeNode.fresh (s : TestState) : TreeNode :=
  { state := s, visits := 0, total_reward := 0, depth := 0, children := [] }

instance : Inhabited TreeNode := ⟨TreeNode.fresh default⟩

/-- Embeds `TreeNode.update` (tree.py lines 98-106): one visit, reward
added to the running total. -/
def TreeNode.update (n : TreeNode) (reward : ℚ) : TreeNode :=
  { n with visits := n.visits + 1, total_reward := n.total_reward + reward }

/-- Replace the element at an index, leaving the list unchanged when the
index is out of range (Python list indexing never reaches that case on the
paths produced by selection). -/
def modifyIdx (f : TreeNode → TreeNode) : List TreeNode → Nat → List TreeNode
  | [], _ => []
  | t :: ts, 0 => f t :: ts
  | t :: ts, n + 1 => t :: modifyIdx f ts n

/-- The node reached from `t` by following a path of child indices; an
out-of-range index stops at the current node (selection only produces
in-range indices). -/
def nodeAt : TreeNode → List Nat → TreeNode
  | t, [] => t
  | t, i :: rest => nodeAt (t.children.getD i t) rest

/-- Apply `f` to the node at the end of a path, rebuilding the tree. -/
def updateTreeAt (f : TreeNode → TreeNode) : TreeNode → List Nat → TreeNode
  | t, [] => f t
  | t, i :: rest =>
    { t with children := modifyIdx (fun c => updateTreeAt f c rest) t.children i }

/-- Whether a path only uses in-range child indices. -/
def validPathB : TreeNode → List Nat → Bool
  | _, [] => true
  | t, i :: rest =>
    if h : i < t.children.length then
      validPathB (t.children.get ⟨i, h⟩) rest
    else false

/-- Embeds the child-insertion loop of `_expansion_and_simulation`
(mcts_controller.py lines 274-277): each kept `(state, reward)` pair is
attached as a fresh child (`add_child` sets the child's depth) and the
child — not the leaf — receives `update(reward)`. -/
def attachChildren (leaf : TreeNode) (kept : List (TestState × ℚ)) :
    TreeNode :=
  kept.foldl
    (fun n cr =>
      { n with
          children :=
            n.children ++
              [TreeNode.update { TreeNode.fresh cr.1 with depth := n.depth + 1 } cr.2] })
    leaf

/-- Embeds `MCTSController._backpropagation` (mcts_controller.py lines
281-294): starting from `leaf.parent` and walking to the root, every
strict ancestor of the leaf receives `update(reward)` exactly once; the
leaf itself (path exhausted) is not updated. -/
def backpropAlong (reward : ℚ) : TreeNode → List Nat → TreeNode
  | t, [] => t
  | t, i :: rest =>
    TreeNode.update
      { t with children := modifyIdx (fun c => backpropAlong reward c rest) t.children i }
      reward

/-- Python's `max(rewards)` on a non-empty list (mcts_controller.py
line 152); returns 0 on the empty list, which the caller never passes. -/
def listMax : List ℚ → ℚ
  | [] => 0
  | x :: xs => xs.foldl max x

/-- One expansion's effect on the tree once the kept children are known
(mcts_controller.py lines 152-153 and 274-294): attach and update the
children at the leaf, then backpropagate the maximum kept reward to the
strict ancestors of the leaf. -/
def expansionAndBackprop (root : TreeNode) (path : List Nat)
    (kept : List (TestState × ℚ)) : TreeNode :=
  backpropAlong (listMax (kept.map Prod.snd))
    (updateTreeAt (fun l => attachChildren l kept) root path) path

/-- Embeds `MCTSController._selection` (mcts_controller.py lines
179-211) as a path from the root: while depth < `max_depth`, a terminal
or unexpanded (childless) node is returned; otherwise the walk descends
into the child picked by `best_child(exploration_coef)`.  When the walk
uses up `max_depth` levels the method returns `None`.  The UCB1 argmax of
`best_child` is abstracted into the `choose` parameter (clamped to an
in-range index); no claim depends on which child UCB1 picks. -/
def selectPath (choose : TreeNode → Nat) : Nat → TreeNode → Option (List Nat)
  | 0, _ => none
  | fuel + 1, t =>
    if t.state.is_terminal then some []
    else if t.children.length == 0 then some []
    else
      let i := min (choose t) (t.children.length - 1)
      (selectPath choose fuel (t.children.getD i t)).map (fun p => i :: p)

/-- Embeds `MCTSController._update_best` (mcts_controller.py lines
522-533): the candidate replaces the incumbent iff it has strictly higher
coverage, or equal coverage and a strictly smaller suite. -/
def updateBest (best cand : TreeNode) : TreeNode :=
  if decide (best.state.current_coverage < cand.state.current_coverage) ||
      (cand.state.current_coverage == best.state.current_coverage &&
        decide (cand.state.test_case_names.length <
          best.state.test_case_names.length)) then
    cand
  else best

/-- Embeds `MCTSController._update_best_from_children` (mcts_controller.py
lines 535-538). -/
def updateBestFromChildren (best leaf : TreeNode) : TreeNode :=
  leaf.children.foldl updateBest best

/-- Embeds `MCTSController._should_terminate` (mcts_controller.py lines
540-566).  `sessTarget` is the session's coverage target and `budgetNow`
the session's `budget_exceeded` flag at this iteration. -/
def shouldTerminate (cfg : MCTSConfig) (sessTarget : ℚ) (budgetNow : Bool)
    (best : TreeNode) (noProg : Nat) : Bool :=
  decide (sessTarget ≤ best.state.current_coverage) ||
    decide (cfg.max_no_progress_iters ≤ noProg) || budgetNow

/-- Embeds the main loop of `MCTSController.search` (mcts_controller.py
lines 120-177).  `gen iter` abstracts the LM call plus the per-candidate
executor calls of iteration `iter`, and yields the list of
`ExecutionResult`s observed for that iteration's candidates (empty when
the LM call fails or its response is unparsable); `budgetAt iter` is the
session's `budget_exceeded` flag when iteration `iter` checks
termination; `choose` abstracts the UCB1 argmax in selection.  Fuel is
the number of loop turns remaining out of `max_iterations`. -/
def searchLoop (cfg : MCTSConfig) (rcfg : RewardConfig) (sessTarget : ℚ)
    (budgetAt : Nat → Bool) (gen : Nat → List ExecutionResult)
    (choose : TreeNode → Nat) :
    Nat → Nat → TreeNode → TreeNode → Nat → ℚ → TreeNode
  | 0, _, _, best, _, _ => best
  | fuel + 1, iter, root, best, noProg, lastBest =>
    if shouldTerminate cfg sessTarget (budgetAt iter) best noProg then best
    else
      match selectPath choose cfg.max_depth root with
      | none => best
      | some path =>
        let leaf := nodeAt root path
        if leaf.state.is_terminal then updateBest best leaf
        else
          let kept := expansionStep cfg rcfg leaf.state (gen iter)
          if kept.isEmpty then
            searchLoop cfg rcfg sessTarget budgetAt gen choose fuel (iter + 1)
              root best noProg lastBest
          else
            let root' := expansionAndBackprop root path kept
            let best' := updateBestFromChildren best (nodeAt root' path)
            if decide (lastBest < best'.state.current_coverage) then
              searchLoop cfg rcfg sessTarget budgetAt gen choose fuel (iter + 1)
                root' best' 0 best'.state.current_coverage
            else
              searchLoop cfg rcfg sessTarget budgetAt gen choose fuel (iter + 1)
                root' best' (noProg + 1) lastBest

/-- Embeds `MCTSController.search` (mcts_controller.py lines 109-177):
the root is a fresh `TreeNode` on the initial state, `best_node` starts
as the root, and the loop runs for at most `max_iterations` turns; the
returned value is `best_node`. -/
def searchModel (cfg : MCTSConfig) (rcfg : RewardConfig) (sessTarget : ℚ)
    (budgetAt : Nat → Bool) (gen : Nat → List ExecutionResult)
    (choose : TreeNode → Nat) (initial_state : TestState) : TreeNode :=
  searchLoop cfg rcfg sessTarget budgetAt gen choose cfg.max_iterations 0
    (TreeNode.fresh initial_state) (TreeNode.fresh initial_state) 0 0

/-- Embeds the root-state construction of `MCTSController.search`
(mcts_controller.py lines 100-107): suite, coverage, details and errors
take their `TestState` defaults. -/
def mkInitialState (function_signature function_path context : String)
    (coverage_target : ℚ) (all_conditions : List ConditionInfo)
    (learned_rules : List String) : TestState :=
  { function_signature := function_signature
    function_path := function_path
    context := context
    coverage_target := coverage_target
    uncovered_conditions := all_conditions
    learned_rules := learned_rules }

/-- Embeds `SessionContext` from `src/core/lats/context_manager.py`
(lines 12-42).  The `created_at` / `last_accessed` wall-clock timestamps
are omitted: no claim depends on them. -/
structure SessionContext where
  session_id : String
  function_signature : String
  function_path : String
  function_code : String
  context : String
  coverage_target : ℚ
  max_iterations : Nat
  learned_rules : List String := []
  total_prompt_tokens : Nat := 0
  total_completion_tokens : Nat := 0
  max_tokens : Nat := 100000
deriving DecidableEq, Repr

/-- Embeds the `SessionContext.total_tokens` property (context_manager.py
lines 56-59). -/
def SessionContext.total_tokens (s : SessionContext) : Nat :=
  s.total_prompt_tokens + s.total_completion_tokens

/-- Embeds `SessionContext.budget_exceeded` (context_manager.py lines
66-69). -/
def SessionContext.budget_exceeded (s : SessionContext) : Bool :=
  decide (s.max_tokens ≤ s.total_tokens)

/-- Embeds `SessionContext.add_token_usage` (context_manager.py lines
50-54): both counters grow by the given amounts. -/
def SessionContext.add_token_usage (s : SessionContext)
    (prompt_tokens completion_tokens : Nat) : SessionContext :=
  { s with
      total_prompt_tokens := s.total_prompt_tokens + prompt_tokens
      total_completion_tokens := s.total_completion_tokens + completion_tokens }

/-- Embeds the token estimate of `MCTSController._generate_candidates`
(mcts_controller.py lines 386-396): `len(text) // 4`, Python floor
division. -/
def tokenEstimate (text : String) : Nat := text.length / 4

/-- Embeds the accrual performed around the LM call in
`_generate_candidates` (mcts_controller.py lines 386-397): the session
gains `len(prompt) // 4` prompt-side and `len(response) // 4`
completion-side tokens. -/
def accrueGenerationTokens (s : SessionContext) (prompt response : String) :
    SessionContext :=
  s.add_token_usage (tokenEstimate prompt) (tokenEstimate response)

/-- Ceiling division by 4, the estimate the spec claims
(`⌈len(text)/4⌉`). Written from the spec for comparison with
`tokenEstimate`, which is translated from the code. -/
def tokenEstimateSpec (text : String) : Nat := (text.length + 3) / 4

/-- Embeds `ContextManager.get_stats` (context_manager.py lines 246-263)
as the association list of the returned dict's keys and (numeric)
values. -/
def getStats (cache : List (String × SessionContext)) (ttl_seconds : Nat) :
    List (String × Nat) :=
  [("total_sessions", cache.length),
    ("total_tokens_used", (cache.map (fun p => p.2.total_tokens)).sum),
    ("total_learned_rules", (cache.map (fun p => p.2.learned_rules.length)).sum),
    ("ttl_seconds", ttl_seconds)]

/-- Embeds the `GET /sessions` handler `list_sessions` from
`src/api/routes/lats.py` (lines 184-197).  The handler first evaluates
`stats["active_sessions"]`; a missing key raises `KeyError`, modelled as
`Except.error`.  On success it would return the count, the session ids
and the aggregate token usage. -/
def listSessions (cache : List (String × SessionContext))
    (ttl_seconds : Nat) : Except String (Nat × List String × Nat) :=
  match (getStats cache ttl_seconds).lookup "active_sessions" with
  | some n =>
    Except.ok (n, cache.map Prod.fst,
      (cache.map (fun p => p.2.total_tokens)).sum)
  | none => Except.error "KeyError: active_sessions"

/-- Outcome of one HTTP attempt inside `DeepSeekClient.generate`
(`src/core/lats/llm_client.py` lines 93-119): a 200 response with
content, a 429, any other status (with its error text), an
`httpx.TimeoutException`, or any other transport exception. -/
inductive LLMAttempt where
  | success (content : String)
  | rateLimited
  | httpStatus (code : Nat) (text : String)
  | timedOut
  | transportFailure (msg : String)
deriving DecidableEq, Repr

/-- Embeds the retry loop of `DeepSeekClient.generate` (llm_client.py
lines 89-121), with `max_retries = 3`.  `att` gives the outcome of each
attempt (indexed from 0), the first component is the returned content or
the raised message, and the second component records the backoff sleeps
(in seconds, chronological) performed between attempts — the code sleeps
`2 ** attempt` seconds. -/
def generateLoop (att : Nat → LLMAttempt) :
    Nat → Nat → List Nat → Except String String × List Nat
  | 0, _, sleeps => (Except.error "Failed to generate after 3 attempts", sleeps)
  | remaining + 1, attempt, sleeps =>
    match att attempt with
    | .success c => (Except.ok c, sleeps)
    | .rateLimited => generateLoop att remaining (attempt + 1) (sleeps ++ [2 ^ attempt])
    | .httpStatus code text =>
      if attempt == 2 then
        (Except.error ("API error: " ++ toString code ++ " - " ++ text), sleeps)
      else generateLoop att remaining (attempt + 1) (sleeps ++ [2 ^ attempt])
    | .timedOut =>
      if attempt == 2 then
        (Except.error "Request timeout after 3 attempts", sleeps)
      else generateLoop att remaining (attempt + 1) (sleeps ++ [2 ^ attempt])
    | .transportFailure m =>
      if attempt == 2 then
        (Except.error ("LLM generation failed: " ++ m), sleeps)
      else generateLoop att remaining (attempt + 1) (sleeps ++ [2 ^ attempt])

/-- Embeds `DeepSeekClient.generate` (llm_client.py lines 52-121): three
attempts total starting at attempt index 0. -/
def generate (att : Nat → LLMAttempt) : Except String String × List Nat :=
  generateLoop att 3 0 []

/-- A raw condition object from the executor's JSON, before the `.get`
defaults of `_parse_java_response` are applied
(`src/core/lats/execution_engine.py` lines 198-206). -/
structure RawCondition where
  condition : Option String
  needTrue : Option Bool
  needFalse : Option Bool
  parentDecision : Option String
deriving DecidableEq, Repr

/-- The `ConditionInfo(...)` construction of `_parse_java_response`
(execution_engine.py lines 200-205) with its `.get` defaults. -/
def RawCondition.toConditionInfo (c : RawCondition) : ConditionInfo :=
  { condition := c.condition.getD ""
    need_true := c.needTrue.getD false
    need_false := c.needFalse.getD false
    parent_decision := c.parentDecision }

/-- The executor's JSON response as read by `_parse_java_response`
(execution_engine.py lines 165-238), with each `.get`-accessed field kept
optional.  The nested `coverage.{kind}.percentage` lookups are flattened
to one optional percentage per kind; a missing `coverage` dict and a
missing `percentage` key both default to 0. -/
structure JavaResponse where
  status : Option String
  statement_percentage : Option ℚ := none
  branch_percentage : Option ℚ := none
  mcdc_percentage : Option ℚ := none
  log : Option String := none
  uncoveredConditions : List RawCondition := []
  allConditions : List RawCondition := []
deriving DecidableEq, Repr

/-- Embeds `ExecutionEngine._parse_java_response` (execution_engine.py
lines 165-238): `compiled` iff status is "success", the log as error
message otherwise, percentages divided by 100, and covered conditions
derived as `allConditions` minus `uncoveredConditions` (via
`ConditionInfo` equality) when `allConditions` is non-empty. -/
def parseJavaResponse (response : JavaResponse)
    (new_test_name : Option String) (suite_names : List String) :
    ExecutionResult :=
  let status := response.status.getD "error"
  let compiled := status == "success"
  let error_msg :=
    if compiled then none else some (response.log.getD "Unknown error")
  let uncovered := response.uncoveredConditions.map RawCondition.toConditionInfo
  let all_conditions := response.allConditions.map RawCondition.toConditionInfo
  let covered :=
    if all_conditions.isEmpty then []
    else all_conditions.filter (fun c => !ciMem c uncovered)
  { new_test_name := new_test_name.getD ""
    new_test_compiled := compiled
    error_message := error_msg
    suite_test_names := suite_names
    statement_coverage := response.statement_percentage.getD 0 / 100
    branch_coverage := response.branch_percentage.getD 0 / 100
    mcdc_coverage := response.mcdc_percentage.getD 0 / 100
    conditions_covered := covered }

/-- Outcome of one outbound executor HTTP call: a parseable 2xx response,
an `httpx.HTTPError` (connection failures and the `raise_for_status` of a
non-2xx status), or any other exception. -/
inductive ExecTransport where
  | ok (response : JavaResponse)
  | httpError (msg : String)
  | otherError (msg : String)
deriving DecidableEq, Repr

/-- Embeds `ExecutionEngine.get_suite_coverage` (execution_engine.py
lines 124-163).  Its `except Exception` handler returns a result with
`new_test_compiled=True`, a "Coverage retrieval error" message and the
queried suite names. -/
def getSuiteCoverage (transport : ExecTransport) (test_names : List String) :
    ExecutionResult :=
  match transport with
  | .ok resp => parseJavaResponse resp none test_names
  | .httpError m =>
    { new_test_name := ""
      new_test_compiled := true
      error_message := some ("Coverage retrieval error: " ++ m)
      suite_test_names := test_names }
  | .otherError m =>
    { new_test_name := ""
      new_test_compiled := true
      error_message := some ("Coverage retrieval error: " ++ m)
      suite_test_names := test_names }

/-- Embeds `ExecutionEngine.execute_new_test` (execution_engine.py lines
48-122).  `hashFn` stands for the 16-hex-digit truncated SHA-256 body
fingerprint `_hash_test_code`; `cache` is the `test_cache` dict as an
association list (later insertions shadow earlier ones on lookup);
`tExec` / `tCov` are the transport outcomes of the execute call and of
the coverage call made on a cache hit.  Returns the result together with
the updated cache. -/
def executeNewTest (hashFn : String → String)
    (cache : List (String × String)) (tExec tCov : ExecTransport)
    (function_path test_code test_name : String)
    (existing_test_names : List String) :
    ExecutionResult × List (String × String) :=
  let test_hash := hashFn test_code
  match cache.lookup test_hash with
  | some cached_name =>
    let suite_names :=
      if existing_test_names.contains cached_name then existing_test_names
      else existing_test_names ++ [cached_name]
    (getSuiteCoverage tCov suite_names, cache)
  | none =>
    match tExec with
    | .ok result =>
      let cache' :=
        if result.status == some "success" then (test_hash, test_name) :: cache
        else cache
      (parseJavaResponse result (some test_name)
        (existing_test_names ++ [test_name]), cache')
    | .httpError m =>
      ({ new_test_name := test_name
         new_test_compiled := false
         error_message := some ("HTTP error: " ++ m)
         suite_test_names := existing_test_names }, cache)
    | .otherError m =>
      ({ new_test_name := test_name
         new_test_compiled := false
         error_message := some ("Execution error: " ++ m)
         suite_test_names := existing_test_names }, cache)

/-- A concrete session used by the token-accrual counterexample. -/
def c7Session : SessionContext :=
  { session_id := "s1", function_signature := "int f(int)"
    function_path := "src/main.cpp::f", function_code := "int f(int x)"
    context := "", coverage_target := 19/20, max_iterations := 100 }

/-- Concrete parent state for the coverage-monotonicity counterexample:
coverage 1/2 with one uncovered condition and an empty suite. -/
def c2Parent : TestState :=
  { function_signature := "int f(int)", function_path := "src/main.cpp::f"
    context := "", coverage_target := 19/20, test_case_names := []
    current_coverage := 1/2
    uncovered_conditions := [⟨"x > 0", true, true, none⟩] }

/-- Concrete execution result for the coverage-monotonicity
counterexample: the test compiles but the reported cumulative MC/DC
coverage (9/20) is below the parent's. -/
def c2Result : ExecutionResult :=
  { new_test_name := "t1", new_test_compiled := true
    suite_test_names := ["t1"], statement_coverage := 9/20
    branch_coverage := 9/20, mcdc_coverage := 9/20 }

/-- Concrete execution result whose cumulative coverage matches the
parent's, used to witness the amended coverage-monotonicity theorem. -/
def c2wResult : ExecutionResult :=
  { new_test_name := "t1", new_test_compiled := true
    suite_test_names := ["t1"], mcdc_coverage := 1/2 }

/-- Concrete non-terminal state used by the backpropagation
counterexample tree. -/
def c3StateA : TestState :=
  { function_signature := "int f(int)", function_path := "src/main.cpp::f"
    context := "", coverage_target := 19/20
    uncovered_conditions := [⟨"x > 0", true, true, none⟩] }

/-- State of the leaf being expanded in the backpropagation
counterexample. -/
def c3StateB : TestState :=
  { c3StateA with test_case_names := ["t1"], current_coverage := 1/10 }

/-- State of the child inserted in the backpropagation counterexample. -/
def c3StateC : TestState :=
  { c3StateA with test_case_names := ["t1", "t2"], current_coverage := 1/5 }

/-- Concrete two-node tree for the backpropagation counterexample: a root
with one visit and one unvisited child (the leaf to expand). -/
def c3Root : TreeNode :=
  { state := c3StateA, visits := 1, total_reward := 0, depth := 0
    children := [TreeNode.fresh c3StateB] }

end LATS

namespace LATS

/-- C1: the clipped reward always lies in the closed interval [-5, 15],
for every configuration and all inputs. -/
theorem reward_compute_bounds (cfg : RewardConfig)
    (old_state new_state : TestState) (exec_result : ExecutionResult) :
    -5 ≤ RewardFunction.compute cfg old_state new_state exec_result ∧
      RewardFunction.compute cfg old_state new_state exec_result ≤ 15 := by
  unfold RewardFunction.compute
  constructor
  · exact le_min (le_max_right _ _) (by norm_num)
  · exact min_le_right _ _

/-- C8: with a positive coverage target, enabled adaptive K picks `max_k`
below 30% progress, `expansion_k` below 70%, and `min_k` otherwise;
disabled adaptive K always picks `expansion_k`.  The three spec instances
(coverage 0.10 / 0.50 / 0.85 against target 0.95 with the default
configuration give K = 5 / 3 / 1) are included. -/
theorem adaptive_k_staging (cfg : MCTSConfig) (c t : ℚ) (ht : 0 < t) :
    (cfg.adaptive_k = true →
      adaptiveK cfg c t =
        if c / t < 3/10 then cfg.max_k
        else if c / t < 7/10 then cfg.expansion_k
        else cfg.min_k) ∧
    (cfg.adaptive_k = false → adaptiveK cfg c t = cfg.expansion_k) ∧
    adaptiveK mctsDefault (1/10) (19/20) = 5 ∧
    adaptiveK mctsDefault (1/2) (19/20) = 3 ∧
    adaptiveK mctsDefault (17/20) (19/20) = 1 := by
  refine ⟨fun h => ?_, fun h => ?_, by norm_num [adaptiveK, mctsDefault],
    by norm_num [adaptiveK, mctsDefault], by norm_num [adaptiveK, mctsDefault]⟩
  · simp only [adaptiveK, h, Bool.not_true, Bool.false_eq_true, if_false,
      if_pos ht]
  · simp [adaptiveK, h]

/-- Witness for C8 at coverage 1/10, target 19/20 with the default
configuration. -/
theorem adaptive_k_staging_witness :
    (0 : ℚ) < 19/20 ∧
      ((mctsDefault.adaptive_k = true →
        adaptiveK mctsDefault (1/10) (19/20) =
          if (1/10 : ℚ) / (19/20) < 3/10 then mctsDefault.max_k
          else if (1/10 : ℚ) / (19/20) < 7/10 then mctsDefault.expansion_k
          else mctsDefault.min_k) ∧
      (mctsDefault.adaptive_k = false →
        adaptiveK mctsDefault (1/10) (19/20) = mctsDefault.expansion_k) ∧
      adaptiveK mctsDefault (1/10) (19/20) = 5 ∧
      adaptiveK mctsDefault (1/2) (19/20) = 3 ∧
      adaptiveK mctsDefault (17/20) (19/20) = 1) :=
  ⟨by norm_num, adaptive_k_staging mctsDefault (1/10) (19/20) (by norm_num)⟩

/-- C5 counterexample: two `ConditionInfo` values that differ only in
`parent_decision` are nevertheless equal under `__eq__`, because equality
compares only three of the four fields. -/
theorem conditioninfo_eq_ignores_parent_decision :
    ciEq ⟨"x > 0", true, true, none⟩ ⟨"x > 0", true, true, some "d"⟩ = true ∧
    (⟨"x > 0", true, true, none⟩ : ConditionInfo).parent_decision ≠
      (⟨"x > 0", true, true, some "d"⟩ : ConditionInfo).parent_decision := by
  constructor <;> decide

/-- C5 as amended: `ConditionInfo` equality holds iff the three fields
`condition`, `need_true` and `need_false` agree (`parent_decision` is
ignored), and equal values have equal hash keys, since `__hash__` hashes
exactly those three fields. -/
theorem conditioninfo_eq_three_fields (a b : ConditionInfo) :
    (ciEq a b = true ↔
      a.condition = b.condition ∧ a.need_true = b.need_true ∧
        a.need_false = b.need_false) ∧
    (ciEq a b = true → ciHashKey a = ciHashKey b) := by
  constructor
  · simp [ciEq, and_assoc]
  · intro h
    simp only [ciEq, Bool.and_eq_true, beq_iff_eq] at h
    simp [ciHashKey, h.1.1, h.1.2, h.2]

/-- Witness for C5's amended theorem at a concrete pair. -/
theorem conditioninfo_eq_three_fields_witness :
    (ciEq ⟨"c", true, false, none⟩ ⟨"c", true, false, some "p"⟩ = true ↔
      ("c" = "c" ∧ true = true ∧ false = false)) ∧
    ciHashKey ⟨"c", true, false, none⟩ = ciHashKey ⟨"c", true, false, some "p"⟩ := by
  have h := conditioninfo_eq_three_fields ⟨"c", true, false, none⟩
    ⟨"c", true, false, some "p"⟩
  exact ⟨by simpa using h.1, h.2 (by decide)⟩

/-- C4 (code bug): with every attempt failing, the three backoff sleeps
the code performs are `2 ** attempt` = 1 s, 2 s, 4 s — not the 2 s, 4 s,
8 s stated by the claim and by the code's own docstring — and the call
raises after the third attempt. -/
theorem generate_retry_schedule_bug :
    generate (fun _ => LLMAttempt.httpStatus 500 "boom") =
      (Except.error "API error: 500 - boom", [1, 2]) ∧
    generate (fun _ => LLMAttempt.rateLimited) =
      (Except.error "Failed to generate after 3 attempts", [1, 2, 4]) ∧
    ([1, 2, 4] : List Nat) ≠ [2, 4, 8] := by
  exact ⟨rfl, rfl, by decide⟩

/-- C9 (code bug): every `GET /sessions` request raises `KeyError`: the
handler reads `stats["active_sessions"]` but `get_stats` returns the key
`"total_sessions"`, so the lookup fails for every cache state. -/
theorem list_sessions_always_keyerror (cache : List (String × SessionContext))
    (ttl_seconds : Nat) :
    listSessions cache ttl_seconds = Except.error "KeyError: active_sessions" :=
  rfl

/-- C7 counterexample: a prompt of length 5 accrues 1 prompt-side token
(`5 // 4`), not the 2 tokens the claimed ceiling division would give. -/
theorem token_estimate_floor_counterexample :
    tokenEstimate "aaaaa" = 1 ∧ tokenEstimateSpec "aaaaa" = 2 ∧
    (accrueGenerationTokens c7Session "aaaaa" "").total_prompt_tokens =
      c7Session.total_prompt_tokens + 1 ∧
    ¬ ((accrueGenerationTokens c7Session "aaaaa" "").total_prompt_tokens =
        c7Session.total_prompt_tokens + tokenEstimateSpec "aaaaa") := by
  refine ⟨rfl, rfl, rfl, by decide⟩

/-- C7 as amended: each LM call accrues exactly `len(prompt) // 4`
prompt-side and `len(response) // 4` completion-side tokens (floor
division), and the session total grows by their sum. -/
theorem token_accrual_floor_division (s : SessionContext)
    (prompt response : String) :
    (accrueGenerationTokens s prompt response).total_prompt_tokens =
      s.total_prompt_tokens + prompt.length / 4 ∧
    (accrueGenerationTokens s prompt response).total_completion_tokens =
      s.total_completion_tokens + response.length / 4 ∧
    (accrueGenerationTokens s prompt response).total_tokens =
      s.total_tokens + (prompt.length / 4 + response.length / 4) := by
  refine ⟨rfl, rfl, ?_⟩
  simp [accrueGenerationTokens, SessionContext.add_token_usage, tokenEstimate,
    SessionContext.total_tokens]
  omega

/-- C6 counterexample: on a fingerprint-cache hit whose coverage
recomputation hits a transport failure, the operation returns a result
with `new_test_compiled = true` (not `false`) and with the cached test
name appended to the suite — contradicting the claim for that path. -/
theorem executor_cache_hit_failure_counterexample :
    (executeNewTest (fun _ => "h1") [("h1", "cached")]
        (ExecTransport.otherError "unused") (ExecTransport.httpError "boom")
        "src/main.cpp::f" "int main" "t_new" ["t0"]).1.new_test_compiled
        = true ∧
    (executeNewTest (fun _ => "h1") [("h1", "cached")]
        (ExecTransport.otherError "unused") (ExecTransport.httpError "boom")
        "src/main.cpp::f" "int main" "t_new" ["t0"]).1.suite_test_names
        = ["t0", "cached"] ∧
    (executeNewTest (fun _ => "h1") [("h1", "cached")]
        (ExecTransport.otherError "unused") (ExecTransport.httpError "boom")
        "src/main.cpp::f" "int main" "t_new" ["t0"]).1.error_message
        = some "Coverage retrieval error: boom" := by
  exact ⟨rfl, rfl, rfl⟩

/-- C6 as amended: transport failures never raise.  On the direct
(cache-miss) path both failure kinds return the synthetic failed result —
`compiled = false`, the reason in `error_message`, and the suite names
unchanged — leaving the cache untouched.  On the fingerprint-cache-hit
path a transport failure in the coverage recomputation instead returns
`compiled = true` with the reason recorded, and the suite contains the
cached name (appended when not already present). -/
theorem executor_transport_failure_behavior (hashFn : String → String)
    (cache : List (String × String)) (tCov : ExecTransport)
    (fpath code name : String) (existing : List String) (m : String) :
    (cache.lookup (hashFn code) = none →
      executeNewTest hashFn cache (ExecTransport.httpError m) tCov fpath code
          name existing =
        (⟨name, false, some ("HTTP error: " ++ m), existing, 0, 0, 0, []⟩,
          cache) ∧
      executeNewTest hashFn cache (ExecTransport.otherError m) tCov fpath code
          name existing =
        (⟨name, false, some ("Execution error: " ++ m), existing, 0, 0, 0, []⟩,
          cache)) ∧
    (∀ cached, cache.lookup (hashFn code) = some cached → ∀ tExec,
      (executeNewTest hashFn cache tExec (ExecTransport.httpError m) fpath code
          name existing).1 =
        ⟨"", true, some ("Coverage retrieval error: " ++ m),
          (if existing.contains cached then existing
            else existing ++ [cached]), 0, 0, 0, []⟩) := by
  constructor
  · intro hmiss
    constructor <;> simp [executeNewTest, hmiss]
  · intro cached hhit tExec
    simp [executeNewTest, hhit, getSuiteCoverage]

/-- Witness for C6's amended theorem: an empty cache (direct path) with a
connection failure. -/
theorem executor_transport_failure_witness :
    executeNewTest (fun _ => "h") [] (ExecTransport.httpError "down")
        (ExecTransport.otherError "x") "p" "code" "t1" ["t0"] =
      (⟨"t1", false, some "HTTP error: down", ["t0"], 0, 0, 0, []⟩, []) ∧
    executeNewTest (fun _ => "h") [] (ExecTransport.otherError "down")
        (ExecTransport.otherError "x") "p" "code" "t1" ["t0"] =
      (⟨"t1", false, some "Execution error: down", ["t0"], 0, 0, 0, []⟩, []) :=
  (executor_transport_failure_behavior (fun _ => "h") [] _ "p" "code" "t1"
    ["t0"] "down").1 rfl

/-- C2 counterexample: a compiled result whose cumulative coverage is
lower than the parent's yields a positive reward, survives the default
pruning filter and is kept by the expansion step, yet its state's
coverage (9/20) is strictly below the parent's (1/2). -/
theorem coverage_monotonicity_counterexample :
    ((expansionStep mctsDefault rewardDefault c2Parent [c2Result]).map
        (fun cr => cr.1.current_coverage)) = [9/20] ∧
    (9/20 : ℚ) < c2Parent.current_coverage := by
  constructor
  · norm_num [expansionStep, keptCandidates, mctsDefault, rewardDefault,
      c2Parent, c2Result, TestState.clone_with_new_test,
      RewardFunction.compute, ciMem, ciEq, ExecutionResult.primary_coverage,
      ExecutionResult.failed]
  · norm_num [c2Parent]

/-- Every pair kept by the per-candidate loop is the clone of the parent
by one of the supplied execution results. -/
theorem keptCandidates_mem_clone (cfg : MCTSConfig) (rcfg : RewardConfig)
    (parent : TestState) :
    ∀ (results : List ExecutionResult) (st : TestState) (rw : ℚ),
      (st, rw) ∈ keptCandidates cfg rcfg parent results →
      ∃ r ∈ results, st = parent.clone_with_new_test r := by
  intro results
  induction results with
  | nil => intro st rw h; simp [keptCandidates] at h
  | cons r rest ih =>
    intro st rw h
    simp only [keptCandidates] at h
    split at h
    · obtain ⟨r', h1, h2⟩ := ih st rw h
      exact ⟨r', List.mem_cons_of_mem _ h1, h2⟩
    · rcases List.mem_cons.mp h with h | h
      · refine ⟨r, List.mem_cons_self _ _, ?_⟩
        simpa using congrArg Prod.fst h
      · obtain ⟨r', h1, h2⟩ := ih st rw h
        exact ⟨r', List.mem_cons_of_mem _ h1, h2⟩

/-- C2 as amended: a child state kept by the expansion step (pruning and
beam limit included) has coverage at least the parent's **provided** every
executor result of the batch reports cumulative coverage at least the
parent's (the executor's cumulativity contract); the pruning filter alone
does not enforce the invariant. -/
theorem coverage_monotonic_under_cumulative_results (cfg : MCTSConfig)
    (rcfg : RewardConfig) (parent : TestState)
    (results : List ExecutionResult) (st : TestState) (rw : ℚ)
    (hmem : (st, rw) ∈ expansionStep cfg rcfg parent results)
    (hcum : ∀ r ∈ results, parent.current_coverage ≤ r.mcdc_coverage) :
    parent.current_coverage ≤ st.current_coverage := by
  have hvalid : (st, rw) ∈ keptCandidates cfg rcfg parent results := by
    simp only [expansionStep] at hmem
    split at hmem
    · exact List.mem_mergeSort.mp (List.take_subset _ _ hmem)
    · exact hmem
  obtain ⟨r, hr, hst⟩ := keptCandidates_mem_clone cfg rcfg parent results
    st rw hvalid
  subst hst
  exact hcum r hr

/-- Witness for C2's amended theorem: with the parent at coverage 1/2 and
a result reporting cumulative coverage 1/2, the kept child's coverage is
at least the parent's. -/
theorem coverage_monotonic_witness :
    ((c2Parent.clone_with_new_test c2wResult, (19/10 : ℚ)) ∈
        expansionStep mctsDefault rewardDefault c2Parent [c2wResult]) ∧
    c2Parent.current_coverage ≤
      (c2Parent.clone_with_new_test c2wResult).current_coverage := by
  have hmem : (c2Parent.clone_with_new_test c2wResult, (19/10 : ℚ)) ∈
      expansionStep mctsDefault rewardDefault c2Parent [c2wResult] := by
    norm_num [expansionStep, keptCandidates, mctsDefault, rewardDefault,
      c2Parent, c2wResult, TestState.clone_with_new_test,
      RewardFunction.compute, ciMem, ciEq, ExecutionResult.primary_coverage,
      ExecutionResult.failed]
  exact ⟨hmem, coverage_monotonic_under_cumulative_results mctsDefault
    rewardDefault c2Parent [c2wResult] _ _ hmem
    (by intro r hr; simp only [List.mem_singleton] at hr; subst hr
        simp [c2Parent, c2wResult])⟩

/-- C3 counterexample: expanding the leaf at path `[0]` of a concrete
two-node tree with one kept child leaves the leaf's visit count at 0 —
the code updates the inserted child and the strict ancestors, never the
leaf — contradicting the claim that the leaf's visits grow by the number
of inserted children. -/
theorem backprop_leaf_update_counterexample :
    (nodeAt (expansionAndBackprop c3Root [0] [(c3StateC, 2)]) [0]).visits
      = 0 ∧
    ¬ ((nodeAt (expansionAndBackprop c3Root [0] [(c3StateC, 2)]) [0]).visits
        = (nodeAt c3Root [0]).visits + 1) := by
  constructor <;> decide

/-- `modifyIdx` preserves length. -/
theorem modifyIdx_length (f : TreeNode → TreeNode) (l : List TreeNode)
    (i : Nat) : (modifyIdx f l i).length = l.length := by
  induction l generalizing i with
  | nil => rfl
  | cons a as ih => cases i <;> simp [modifyIdx, ih]

/-- Reading back the modified index (any defaults) applies `f` to the
original element when the index is in range. -/
theorem modifyIdx_getD_self (f : TreeNode → TreeNode) (l : List TreeNode)
    (i : Nat) (d d' : TreeNode) (h : i < l.length) :
    (modifyIdx f l i).getD i d = f (l.getD i d') := by
  induction l generalizing i with
  | nil => simp at h
  | cons a as ih =>
    cases i with
    | zero => simp [modifyIdx]
    | succ n =>
      simp only [modifyIdx, List.getD_cons_succ]
      exact ih n (by simpa using h)

/-- Two modifications at the same index compose. -/
theorem modifyIdx_modifyIdx (f g : TreeNode → TreeNode) (l : List TreeNode)
    (i : Nat) :
    modifyIdx g (modifyIdx f l i) i = modifyIdx (fun x => g (f x)) l i := by
  induction l generalizing i with
  | nil => rfl
  | cons a as ih => cases i <;> simp [modifyIdx, ih]

/-- `attachChildren` appends one updated fresh node per kept pair and
leaves the leaf's own statistics untouched. -/
theorem attachChildren_spec (leaf : TreeNode) (kept : List (TestState × ℚ)) :
    attachChildren leaf kept =
      { state := leaf.state, visits := leaf.visits
        total_reward := leaf.total_reward, depth := leaf.depth
        children := leaf.children ++ kept.map (fun cr =>
          { state := cr.1, visits := 1, total_reward := cr.2
            depth := leaf.depth + 1, children := [] }) } := by
  induction kept generalizing leaf with
  | nil =>
    simp only [attachChildren, List.foldl_nil, List.map_nil, List.append_nil]
    cases leaf
    rfl
  | cons c rest ih =>
    simp only [attachChildren, List.foldl_cons] at ih ⊢
    rw [ih]
    simp [TreeNode.update, TreeNode.fresh, List.map_cons, List.append_assoc]

/-- C3 as amended: after an expansion that inserts at least one child
under the leaf at `path`, the leaf's own visit count and reward total are
unchanged; the kept children are appended in order, each updated exactly
once with its own reward (one visit, its reward as total); and every
strict ancestor of the leaf is updated exactly once with the maximum of
the kept rewards. -/
theorem expansion_updates_children_not_leaf (path : List Nat)
    (kept : List (TestState × ℚ)) (hk : kept ≠ []) (root : TreeNode)
    (hv : validPathB root path = true) :
    (nodeAt (expansionAndBackprop root path kept) path).visits =
      (nodeAt root path).visits ∧
    (nodeAt (expansionAndBackprop root path kept) path).total_reward =
      (nodeAt root path).total_reward ∧
    (nodeAt (expansionAndBackprop root path kept) path).children =
      (nodeAt root path).children ++ kept.map (fun cr =>
        { state := cr.1, visits := 1, total_reward := cr.2
          depth := (nodeAt root path).depth + 1, children := [] }) ∧
    (∀ q j rest, path = q ++ j :: rest →
      (nodeAt (expansionAndBackprop root path kept) q).visits =
        (nodeAt root q).visits + 1 ∧
      (nodeAt (expansionAndBackprop root path kept) q).total_reward =
        (nodeAt root q).total_reward + listMax (kept.map Prod.snd)) := by
  induction path generalizing root with
  | nil =>
    have hE : expansionAndBackprop root [] kept = attachChildren root kept :=
      rfl
    rw [hE, attachChildren_spec]
    refine ⟨rfl, rfl, rfl, ?_⟩
    intro q j rest habs
    exact absurd habs (by simp)
  | cons i tail ih =>
    have hlen : i < root.children.length := by
      simp only [validPathB] at hv
      by_contra hno
      rw [dif_neg hno] at hv
      exact Bool.false_ne_true hv
    have hv' : validPathB (root.children.get ⟨i, hlen⟩) tail = true := by
      simp only [validPathB] at hv
      rwa [dif_pos hlen] at hv
    have hafter : expansionAndBackprop root (i :: tail) kept =
        TreeNode.update
          { root with
              children :=
                modifyIdx (fun c => expansionAndBackprop c tail kept)
                  root.children i }
          (listMax (kept.map Prod.snd)) := by
      simp only [expansionAndBackprop, updateTreeAt, backpropAlong,
        modifyIdx_modifyIdx]
    have hch : (expansionAndBackprop root (i :: tail) kept).children =
        modifyIdx (fun c => expansionAndBackprop c tail kept)
          root.children i := by
      rw [hafter]; rfl
    have hgetD : ∀ d : TreeNode, root.children.getD i d =
        root.children.get ⟨i, hlen⟩ := by
      intro d
      rw [List.getD_eq_getElem _ _ hlen, List.get_eq_getElem]
    have hafter_any : ∀ p : List Nat,
        nodeAt (expansionAndBackprop root (i :: tail) kept) (i :: p) =
          nodeAt (expansionAndBackprop (root.children.get ⟨i, hlen⟩) tail kept)
            p := by
      intro p
      simp only [nodeAt, hch]
      rw [modifyIdx_getD_self _ _ _ _ root hlen, hgetD]
    have hroot_any : ∀ p : List Nat,
        nodeAt root (i :: p) = nodeAt (root.children.get ⟨i, hlen⟩) p := by
      intro p
      simp only [nodeAt]
      rw [hgetD]
    obtain ⟨ih1, ih2, ih3, ih4⟩ := ih (root.children.get ⟨i, hlen⟩) hv'
    refine ⟨?_, ?_, ?_, ?_⟩
    · rw [hafter_any, hroot_any]; exact ih1
    · rw [hafter_any, hroot_any]; exact ih2
    · rw [hafter_any, hroot_any]; exact ih3
    · intro q j rest hq
      cases q with
      | nil =>
        constructor
        · rw [hafter]; rfl
        · rw [hafter]; rfl
      | cons a q' =>
        rw [List.cons_append] at hq
        injection hq with h1 h2
        subst h1
        rw [hafter_any q', hroot_any q']
        exact ih4 q' j rest h2

/-- Witness for C3's amended theorem on the concrete two-node tree: the
expanded leaf's visit count is unchanged. -/
theorem expansion_updates_children_not_leaf_witness :
    ([(c3StateC, (2 : ℚ))] : List (TestState × ℚ)) ≠ [] ∧
    validPathB c3Root [0] = true ∧
    (nodeAt (expansionAndBackprop c3Root [0] [(c3StateC, 2)]) [0]).visits =
      (nodeAt c3Root [0]).visits :=
  ⟨by simp, by decide,
    (expansion_updates_children_not_leaf [0] [(c3StateC, 2)] (by simp)
      c3Root (by decide)).1⟩

/-- A childless node is returned by selection immediately whenever any
depth budget remains: it is either terminal or not fully expanded. -/
theorem selectPath_childless (choose : TreeNode → Nat) (t : TreeNode)
    (h : t.children = []) (fuel : Nat) :
    selectPath choose (fuel + 1) t = some [] := by
  simp [selectPath, h]

/-- `_update_best` keeps the incumbent when compared with itself: the
strictly-better test fails. -/
theorem updateBest_self (b : TreeNode) : updateBest b b = b := by
  simp [updateBest]

/-- The search loop never replaces the best node when every expansion
yields no kept children: the tree stays a childless root and every exit
path returns the initial best. -/
theorem searchLoop_no_children (cfg : MCTSConfig) (rcfg : RewardConfig)
    (sessTarget : ℚ) (budgetAt : Nat → Bool)
    (gen : Nat → List ExecutionResult) (choose : TreeNode → Nat)
    (st0 : TestState)
    (hgen : ∀ iter st, expansionStep cfg rcfg st (gen iter) = []) :
    ∀ fuel iter noProg lastBest,
      searchLoop cfg rcfg sessTarget budgetAt gen choose fuel iter
        (TreeNode.fresh st0) (TreeNode.fresh st0) noProg lastBest =
      TreeNode.fresh st0 := by
  intro fuel
  induction fuel with
  | zero => intro iter noProg lastBest; rfl
  | succ n ih =>
    intro iter noProg lastBest
    rw [searchLoop]
    split
    · rfl
    · cases hmd : cfg.max_depth with
      | zero => rfl
      | succ d =>
        rw [selectPath_childless choose _ rfl d]
        show (if (nodeAt (TreeNode.fresh st0) []).state.is_terminal then _
          else _) = TreeNode.fresh st0
        split
        · exact updateBest_self _
        · rw [hgen iter _]
          exact ih (iter + 1) noProg lastBest

/-- C10: when no expansion ever inserts a child (every LM call fails or
every candidate is pruned — i.e. every iteration's expansion step keeps
nothing), the completed search still returns the root node it initialized
`best_node` to, whose state is the session-constructed initial state:
an empty suite with coverage 0. -/
theorem search_no_children_returns_root (cfg : MCTSConfig)
    (rcfg : RewardConfig) (sessTarget : ℚ) (budgetAt : Nat → Bool)
    (gen : Nat → List ExecutionResult) (choose : TreeNode → Nat)
    (sig fpath ctx : String) (tgt : ℚ) (conds : List ConditionInfo)
    (rules : List String)
    (hgen : ∀ iter st, expansionStep cfg rcfg st (gen iter) = []) :
    searchModel cfg rcfg sessTarget budgetAt gen choose
        (mkInitialState sig fpath ctx tgt conds rules) =
      TreeNode.fresh (mkInitialState sig fpath ctx tgt conds rules) ∧
    (mkInitialState sig fpath ctx tgt conds rules).test_case_names = [] ∧
    (mkInitialState sig fpath ctx tgt conds rules).current_coverage = 0 :=
  ⟨searchLoop_no_children cfg rcfg sessTarget budgetAt gen choose
      (mkInitialState sig fpath ctx tgt conds rules) hgen
      cfg.max_iterations 0 0 0, rfl, rfl⟩

/-- Witness for C10 with the default configuration, a failing LM (no
execution results on any iteration), an untouched budget and a concrete
session: the search returns the fresh root. -/
theorem search_no_children_returns_root_witness :
    searchModel mctsDefault rewardDefault (19/20) (fun _ => false)
        (fun _ => []) (fun _ => 0)
        (mkInitialState "int f(int)" "src/main.cpp::f" "" (19/20)
          [⟨"x > 0", true, true, none⟩] []) =
      TreeNode.fresh (mkInitialState "int f(int)" "src/main.cpp::f" ""
        (19/20) [⟨"x > 0", true, true, none⟩] []) :=
  (search_no_children_returns_root mctsDefault rewardDefault (19/20)
    (fun _ => false) (fun _ => []) (fun _ => 0) "int f(int)"
    "src/main.cpp::f" "" (19/20) [⟨"x > 0", true, true, none⟩] []
    (fun _ _ => rfl)).1

end LATS
